import Mathlib

/-!
Verification of the core search of the Sting chess engine (src/src/search.cpp)
against its natural-language specification.

The embedding is shallow: the values manipulated by the search are plain
integers, positions and threads are abstracted by the boolean/numeric answers
the search reads from them (recorded in explicit state records), and recursive
sub-searches are abstracted by oracle functions.  Every definition below is a
direct transcription of the corresponding C++ code, with line references.
Writes to external state (transposition table stores, history and killer
updates, log/UCI text output) are elided except where a claim is about them,
in which case the written data is returned as part of the result record.
-/

namespace Sting

/-! ### Value constants

Modelled from the spec: the numeric layout of the Value enumeration lives in
the engine types header, which is not under src/ (only search.cpp is).  The
spec fixes DRAW = 0, INFINITE > MATE, the band bounds MATE_IN_MAX and
MATED_IN_MAX and the sentinel NONE; the concrete numbers below are the
standard layout of this engine family, with INFINITE = MATE + 1 and
NONE = MATE + 2 immediately above the mate value, and PLY_MAX = 100. -/

def VALUE_ZERO : Int := 0

def VALUE_DRAW : Int := 0

def VALUE_KNOWN_WIN : Int := 15000

def VALUE_MATE : Int := 30000

def VALUE_INFINITE : Int := 30001

def VALUE_NONE : Int := 30002

def PLY_MAX : Int := 100

def VALUE_MATE_IN_PLY_MAX : Int := VALUE_MATE - PLY_MAX

def VALUE_MATED_IN_PLY_MAX : Int := -VALUE_MATE + PLY_MAX

/-- Modelled from the spec: mate-score helpers from the types header (not under
src/); a mate at ply p scores MATE - p for the winner, -MATE + p for the
loser. -/
def value_mate_in (ply : Int) : Int := VALUE_MATE - ply

/-- Modelled from the spec: see value_mate_in. -/
def value_mated_in (ply : Int) : Int := -VALUE_MATE + ply

/-- Modelled from the spec: one full ply of depth is ONE_PLY = 2 fractional
units (types header, not under src/). -/
def ONE_PLY : Int := 2

/-- Modelled from the spec: the two negative depth sentinels marking the
quiescence horizon band (types header, not under src/). -/
def DEPTH_QS_CHECKS : Int := -ONE_PLY

/-- Modelled from the spec: see DEPTH_QS_CHECKS. -/
def DEPTH_QS_NO_CHECKS : Int := -2 * ONE_PLY

def DEPTH_ZERO : Int := 0

/-- Modelled from the spec: bound kinds NONE, UPPER, LOWER, EXACT with
LOWER bitor UPPER = EXACT (spec section 3; types header not under src/). -/
def VALUE_TYPE_NONE : Nat := 0

/-- Modelled from the spec: see VALUE_TYPE_NONE. -/
def VALUE_TYPE_UPPER : Nat := 1

/-- Modelled from the spec: see VALUE_TYPE_NONE. -/
def VALUE_TYPE_LOWER : Nat := 2

/-- Modelled from the spec: see VALUE_TYPE_NONE. -/
def VALUE_TYPE_EXACT : Nat := 3

/-- Moves are opaque tokens; MOVE_NONE is 0 (spec section 3). -/
def MOVE_NONE : Nat := 0

/-! ### TT value encoding (search.cpp lines 1767-1794) -/

/-- search.cpp lines 1767-1776: adjust a mate score before storing it in the
transposition table. -/
def value_to_tt (v : Int) (ply : Int) : Int :=
  if v ≥ VALUE_MATE_IN_PLY_MAX then v + ply
  else if v ≤ VALUE_MATED_IN_PLY_MAX then v - ply
  else v

/-- search.cpp lines 1782-1794: adjust a transposition-table score back to the
current ply; the sentinel VALUE_NONE is passed through unchanged. -/
def value_from_tt (v : Int) (ply : Int) : Int :=
  if v = VALUE_NONE then v
  else if v ≥ VALUE_MATE_IN_PLY_MAX then v - ply
  else if v ≤ VALUE_MATED_IN_PLY_MAX then v + ply
  else v

/-! ### TT entries and the cutoff predicate (search.cpp lines 1914-1924) -/

/-- One transposition-table entry, with the fields search.cpp reads: bounded
score, static evaluation, static-evaluation margin, depth, best move and
bound kind (spec section 3). -/
structure TTEntry where
  value : Int
  staticValue : Int
  staticValueMargin : Int
  depth : Int
  move : Nat
  type : Nat
deriving DecidableEq, Repr

/-- search.cpp lines 1914-1924: whether a stored score may be used for a
cutoff at a non-PV node. -/
def ok_to_use_TT (tte : TTEntry) (depth : Int) (beta : Int) (ply : Int) : Bool :=
  let v := value_from_tt tte.value ply
  (decide (tte.depth ≥ depth)
    || decide (v ≥ max VALUE_MATE_IN_PLY_MAX beta)
    || decide (v < min VALUE_MATED_IN_PLY_MAX beta))
  && ((decide (tte.type &&& VALUE_TYPE_LOWER ≠ 0) && decide (v ≥ beta))
    || (decide (tte.type &&& VALUE_TYPE_UPPER ≠ 0) && decide (v < beta)))

/-- The claimed condition for ok_to_use_TT, transcribed from the words of the
spec sentence: depth sufficient OR the ply-adjusted score lies outside the
ordinary (non-mate) band, AND the bound kind lies on the correct side of
beta.  Kept separate from ok_to_use_TT so the two can be compared. -/
def okToUseTTClaimed (tte : TTEntry) (depth : Int) (beta : Int) (ply : Int) : Bool :=
  let v := value_from_tt tte.value ply
  (decide (tte.depth ≥ depth)
    || decide (v ≥ VALUE_MATE_IN_PLY_MAX)
    || decide (v ≤ VALUE_MATED_IN_PLY_MAX))
  && ((decide (tte.type &&& VALUE_TYPE_LOWER ≠ 0) && decide (v ≥ beta))
    || (decide (tte.type &&& VALUE_TYPE_UPPER ≠ 0) && decide (v < beta)))

/-! ### Razoring (search.cpp lines 100-103 and 776-792) -/

/-- search.cpp line 100: maximum depth for razoring. -/
def RazorDepth : Int := 4 * ONE_PLY

/-- search.cpp line 103: dynamic razoring margin based on depth. -/
def razor_margin (d : Int) : Int := 0x200 + 0x10 * d

/-- The node state read by the razoring step of search.  All fields are
answers the C++ code obtains from the position, the search stack or the
transposition-table probe just before line 776. -/
structure RazorNode where
  pvNode : Bool
  depth : Int
  inCheck : Bool
  /-- refinedValue, computed at step 5 (lines 755-774). -/
  refinedValue : Int
  beta : Int
  ttMove : Nat
  excludedMove : Nat
  /-- pos.has_pawn_on_7th(pos.side_to_move()). -/
  hasPawnOn7th : Bool
deriving DecidableEq, Repr

/-- search.cpp lines 776-792: the razoring step.  qs is the quiescence search
oracle, called on the zero window (rbeta-1, rbeta); some v means the step
returns v from search, none means control falls through to step 7. -/
def razoringStep (st : RazorNode) (qs : Int → Int → Int) : Option Int :=
  if st.pvNode = false
      ∧ st.depth < RazorDepth
      ∧ st.inCheck = false
      ∧ st.refinedValue + razor_margin st.depth < st.beta
      ∧ st.ttMove = MOVE_NONE
      ∧ st.excludedMove = MOVE_NONE
      ∧ |st.beta| < VALUE_MATE_IN_PLY_MAX
      ∧ st.hasPawnOn7th = false then
    let rbeta := st.beta - razor_margin st.depth
    let v := qs (rbeta - 1) rbeta
    if v < rbeta then some v else none
  else none

/-- The razoring trigger exactly as the claim words it: only the five
conditions non-PV, low depth, not in check, no TT move, and eval + margin
below beta.  Kept separate from razoringStep so the two can be compared. -/
def razoringStepClaimed (st : RazorNode) (qs : Int → Int → Int) : Option Int :=
  if st.pvNode = false
      ∧ st.depth < RazorDepth
      ∧ st.inCheck = false
      ∧ st.refinedValue + razor_margin st.depth < st.beta
      ∧ st.ttMove = MOVE_NONE then
    let rbeta := st.beta - razor_margin st.depth
    let v := qs (rbeta - 1) rbeta
    if v < rbeta then some v else none
  else none

/-! ### The main-search move loop and the mate/stalemate return
(search.cpp lines 1049-1442, instantiated at SpNode = false)

The loop is modelled as a fold over the sequence of moves produced by the
MovePicker.  Per-move answers that the C++ code obtains from the position,
the thread pool or the global tables are recorded in a SMoveRec; the value
produced by the recursive sub-searches of steps 14, 15 and the PV re-search
for a move that is actually made is recorded as a single oracle value,
since only the final value of the move reaches step 17. -/

/-- What steps 11-16 do with a move once it has been counted. -/
inductive SMoveOutcome where
  /-- Nat-count based pruning (line 1202) or negative-SEE pruning
  (line 1234): continue without touching bestValue. -/
  | pruneQuiet : SMoveOutcome
  /-- Int-based futility pruning (lines 1214-1226) with the computed
  futilityValueScaled: continue, raising bestValue to it if larger. -/
  | pruneFutility (fv : Int) : SMoveOutcome
  /-- The move was made and searched; v is the value after steps 14-15 and
  the optional PV re-search; stopAfter records StopRequest being observed
  at line 1344 (Root only). -/
  | searched (v : Int) (stopAfter : Bool) : SMoveOutcome
deriving DecidableEq, Repr

/-- One move emitted by the MovePicker, with the position-dependent answers
the loop body reads for it. -/
structure SMoveRec where
  move : Nat
  /-- Threads[threadID].cutoff_occurred() observed at the loop head
  (line 1075) when this move would be picked. -/
  cutoffAtHead : Bool
  /-- The two position-dependent disjuncts of the excluded-move filter
  (lines 1086-1089): the excluded piece-class token matches, or the move
  goes to the from-square of the move two plies up. -/
  matchesExclClass : Bool
  /-- pos.move_gives_check(move) (line 1114). -/
  givesCheck : Bool
  outcome : SMoveOutcome
deriving DecidableEq, Repr

/-- The loop state shared across iterations of the move loop. -/
structure SLoopState where
  moveCount : Nat
  bestValue : Int
  alpha : Int
  bestMove : Nat
deriving DecidableEq, Repr

/-- Parameters of the move loop that stay fixed across iterations:
node flags, window, and the global heuristic values the loop body reads. -/
structure SLoopCtx where
  pvNode : Bool
  root : Bool
  excludedMove : Nat
  beta : Int
  depth : Int
  /-- The global LastValue read at line 1306/1312. -/
  lastValue : Int
  /-- The MultiPV count read at lines 1113 and 1369. -/
  multiPV : Nat
  /-- Rml scores read at Root when MultiPV > 1 (line 1370). -/
  rmlScore : Nat → Int
  /-- ss->eval > VALUE_ZERO, read at Root at line 1372. -/
  evalGtZero : Bool

/-- Step 17 (lines 1296-1335) at a non-split-point node, followed by the
Root-only book-keeping (lines 1337-1379).  Returns the updated state and
whether the Root StopRequest break at line 1344 fired. -/
def searchStep17 (cx : SLoopCtx) (m : SMoveRec) (v : Int) (stopAfter : Bool)
    (st : SLoopState) (mc : Nat) : SLoopState × Bool :=
  let isPvMove := cx.pvNode = true
      ∧ mc ≤ (if cx.root then (if cx.depth ≤ ONE_PLY then 1000 else cx.multiPV) else 1)
  let st1 :=
    if v > st.bestValue then
      let newBest := if v - cx.lastValue ≠ 1 ∨ cx.pvNode = false ∨ cx.root = true ∨ isPvMove
        then v else st.bestValue
      if v > st.alpha then
        let newAlpha := if cx.root = false ∧ cx.pvNode = true ∧ v < cx.beta then v else st.alpha
        { moveCount := mc, bestValue := newBest, alpha := newAlpha, bestMove := m.move }
      else { moveCount := mc, bestValue := newBest, alpha := st.alpha, bestMove := st.bestMove }
    else { st with moveCount := mc }
  if cx.root = false then (st1, false)
  else if stopAfter then (st1, true)
  else if isPvMove ∨ v > st1.alpha then
    let newAlpha :=
      if cx.multiPV > 1 then cx.rmlScore (min mc cx.multiPV - 1)
      else if v > st1.alpha then v - (if v = VALUE_ZERO ∧ cx.evalGtZero then 1 else 0)
      else st1.alpha
    ({ st1 with alpha := newAlpha }, false)
  else (st1, false)

/-- Steps 10-18 (lines 1071-1392) at a non-split-point node: the move loop as
a fold over the MovePicker output.  The loop head tests bestValue < beta and
the cutoff flag; the excluded-move filter skips a move before it is counted
(lines 1084-1090); a counted move that gives check while an excluded move is
set is uncounted again (lines 1115-1119); every other move is either pruned
by step 12 or searched and folded through step 17. -/
def searchMoveLoop (cx : SLoopCtx) : SLoopState → List SMoveRec → SLoopState
  | st, [] => st
  | st, m :: rest =>
    if ¬ (st.bestValue < cx.beta) then st
    else if m.cutoffAtHead then st
    else if cx.excludedMove ≠ MOVE_NONE ∧ (m.move = cx.excludedMove ∨ m.matchesExclClass) then
      searchMoveLoop cx st rest
    else
      let mc := st.moveCount + 1
      if cx.excludedMove ≠ MOVE_NONE ∧ m.givesCheck then
        searchMoveLoop cx { st with moveCount := mc - 1 } rest
      else
        match m.outcome with
        | .pruneQuiet => searchMoveLoop cx { st with moveCount := mc } rest
        | .pruneFutility fv =>
          searchMoveLoop cx
            { st with moveCount := mc,
                      bestValue := if fv > st.bestValue then fv else st.bestValue } rest
        | .searched v stopAfter =>
          let (st1, brk) := searchStep17 cx m v stopAfter st mc
          if brk then st1 else searchMoveLoop cx st1 rest

/-- The canonical loop entry state: moveCount = 0 (line 655), bestValue =
-VALUE_INFINITE (line 659), bestMove = MOVE_NONE (line 674 / 1054), and the
alpha the node reached the loop with. -/
def initLoopState (alpha : Int) : SLoopState :=
  { moveCount := 0, bestValue := -VALUE_INFINITE, alpha := alpha, bestMove := MOVE_NONE }

/-- The move loop followed by step 19 (lines 1394-1403) and the final return
(line 1441), at a non-split-point node: if no move was counted the node is a
mate, a stalemate, or an excluded-move search that found nothing, and the
corresponding value is returned; otherwise the loop bestValue is returned.
The step-20 table updates (lines 1405-1429) are external writes and do not
change the returned value. -/
def searchMoveLoopFinish (cx : SLoopCtx) (oldAlpha : Int) (inCheck : Bool) (ply : Int)
    (alpha : Int) (moves : List SMoveRec) : Int :=
  let r := searchMoveLoop cx (initLoopState alpha) moves
  if r.moveCount = 0 then
    if cx.excludedMove ≠ MOVE_NONE then oldAlpha
    else if inCheck then value_mated_in ply
    else VALUE_DRAW
  else r.bestValue

/-! ### Transposition-table entry validation (search.cpp lines 713-729 and
1488-1502) -/

/-- search.cpp lines 727-728 and 1500-1501: a probed entry is inconsistent
with the in-check status when not in check but either static field is the
NONE sentinel, or in check but either static field is not NONE. -/
def ttStaticsInconsistent (e : TTEntry) (inCheck : Bool) : Bool :=
  (!inCheck && (decide (e.staticValue = VALUE_NONE) || decide (e.staticValueMargin = VALUE_NONE)))
  || (inCheck && (decide (e.staticValue ≠ VALUE_NONE) || decide (e.staticValueMargin ≠ VALUE_NONE)))

/-- search.cpp lines 715-725 (identically lines 1488-1498): extract the TT
move; an entry whose move is not pseudo-legal is dropped entirely; an entry
without a move is kept with ttMove = MOVE_NONE.  pseudoLegal is the answer
of pos.move_is_pseudo_legal for the stored move. -/
def validateTTMove (probed : Option TTEntry) (pseudoLegal : Bool) : Option TTEntry × Nat :=
  match probed with
  | some e =>
    if e.move ≠ MOVE_NONE then
      (if pseudoLegal then (some e, e.move) else (none, MOVE_NONE))
    else (some e, MOVE_NONE)
  | none => (none, MOVE_NONE)

/-- search.cpp lines 715-729: the entry search() works with after both the
pseudo-legality filter and the static-eval consistency filter. -/
def searchValidatedTT (probed : Option TTEntry) (pseudoLegal inCheck : Bool) : Option TTEntry :=
  match (validateTTMove probed pseudoLegal).1 with
  | some e => if ttStaticsInconsistent e inCheck then none else some e
  | none => none

/-- search.cpp lines 1488-1502: the entry qsearch() works with after both the
pseudo-legality filter and the static-eval consistency filter. -/
def qsearchValidatedTT (probed : Option TTEntry) (pseudoLegal inCheck : Bool) : Option TTEntry :=
  match (validateTTMove probed pseudoLegal).1 with
  | some e => if ttStaticsInconsistent e inCheck then none else some e
  | none => none

/-- search.cpp lines 734-753: the TT cutoff of the main search, applied to
the validated entry.  PV nodes require an exact score of sufficient depth
strictly inside the window; non-PV nodes use ok_to_use_TT.  some v means
search returns v at step 4. -/
def searchTTCutoff (root pvNode : Bool) (tte : Option TTEntry)
    (alpha beta : Int) (depth ply : Int) : Option Int :=
  match tte with
  | some e =>
    if root = false ∧ e.value ≠ VALUE_NONE
        ∧ (if pvNode then e.depth ≥ depth ∧ e.type = VALUE_TYPE_EXACT
                          ∧ e.value > alpha ∧ e.value < beta
           else ok_to_use_TT e depth beta ply = true) then
      some (value_from_tt e.value ply)
    else none
  | none => none

/-- search.cpp lines 1930-1941: return the transposition-table score when it
bounds the static evaluation from the right side, the static evaluation
otherwise. -/
def refine_eval (e : TTEntry) (defaultEval : Int) (ply : Int) : Int :=
  let v := value_from_tt e.value ply
  if (e.type &&& VALUE_TYPE_LOWER ≠ 0 ∧ v ≥ defaultEval)
      ∨ (e.type &&& VALUE_TYPE_UPPER ≠ 0 ∧ v < defaultEval) then v
  else defaultEval

/-- The static-evaluation state search() builds at step 5. -/
structure SearchEvalState where
  eval : Int
  evalMargin : Int
  refinedValue : Int
  /-- Whether an eval-only TT entry was stored (line 769). -/
  storedFreshEval : Bool
deriving DecidableEq, Repr

/-- search.cpp lines 755-774: step 5 of the main search, applied to the
validated entry.  In check both static fields are the NONE sentinel and
refinedValue keeps its initial -VALUE_INFINITE (line 659); otherwise the
statics are reused from the entry when one survived validation, and are
computed by the evaluator (the two oracle arguments) when none did. -/
def searchEvalStep (inCheck : Bool) (tte : Option TTEntry)
    (evalOracle evalMarginOracle : Int) (ply : Int) : SearchEvalState :=
  if inCheck then
    { eval := VALUE_NONE, evalMargin := VALUE_NONE,
      refinedValue := -VALUE_INFINITE, storedFreshEval := false }
  else
    match tte with
    | some e =>
      { eval := e.staticValue, evalMargin := e.staticValueMargin,
        refinedValue := if e.value ≠ VALUE_NONE then refine_eval e e.staticValue ply
                        else e.staticValue,
        storedFreshEval := false }
    | none =>
      { eval := evalOracle, evalMargin := evalMarginOracle,
        refinedValue := evalOracle, storedFreshEval := true }

/-! ### Quiescence search (search.cpp lines 1449-1663) -/

/-- search.cpp line 131: futility margin for the quiescence search. -/
def FutilityMarginQS : Int := 0x80

/-- Modelled from the spec: midgame and endgame pawn values from the value
header (not under src/); the engine family standard numbers are used.  No
theorem below depends on the exact numbers. -/
def PawnValueMidgame : Int := 198

/-- Modelled from the spec: see PawnValueMidgame. -/
def PawnValueEndgame : Int := 258

/-- One move emitted by the quiescence MovePicker, with the
position-dependent answers the loop body reads for it, and the value of the
recursive qsearch call as an oracle field. -/
structure QMoveRec where
  move : Nat
  /-- pos.move_gives_check(move) (line 1571). -/
  givesCheck : Bool
  /-- pos.move_is_capture(move) (line 1601). -/
  isCapture : Bool
  /-- move_is_promotion(move) (lines 1579, 1608). -/
  isPromotion : Bool
  /-- pos.move_is_capture_or_promotion(move) (line 1619). -/
  isCaptureOrPromotion : Bool
  /-- pos.move_is_passed_pawn_push(move) (line 1580). -/
  isPassedPawnPush : Bool
  /-- move_is_ep(move) (line 1584). -/
  isEP : Bool
  /-- pos.endgame_value_of_piece_on(move_to(move)) (line 1583). -/
  capturedEndgameValue : Int
  /-- pos.see(move) (line 1594). -/
  see : Int
  /-- pos.see_sign(move) (line 1609). -/
  seeSign : Int
  /-- check_is_dangerous(pos, move, futilityBase, beta) (line 1621). -/
  checkDangerous : Bool
  /-- The value of -qsearch(pos after move, -beta, -alpha, depth - ONE_PLY)
  (line 1629). -/
  searchedValue : Int
deriving DecidableEq, Repr

/-- The node state read by one qsearch call. -/
structure QNode where
  pvNode : Bool
  alpha : Int
  beta : Int
  depth : Int
  /-- ss->ply, already incremented (line 1467). -/
  ply : Int
  /-- pos.is_draw() (line 1470). -/
  isDraw : Bool
  /-- pos.in_check() (line 1476). -/
  inCheck : Bool
  /-- The raw TT.probe result (line 1481). -/
  probedTT : Option TTEntry
  /-- pos.move_is_pseudo_legal of the stored TT move (line 1490). -/
  ttPseudoLegal : Bool
  /-- is_stalemate(pos) (line 1525). -/
  isStalemate : Bool
  /-- evaluate(pos, margin) (line 1537). -/
  evalValue : Int
  evalMargin : Int
  /-- pos.non_pawn_material(stm) > RookValueMidgame (line 1555). -/
  enoughMaterial : Bool
  /-- pos.can_castle(pos.side_to_move()) (line 1602). -/
  canCastle : Bool
  /-- (ss-1)->currentMove == MOVE_NULL (line 1618). -/
  prevMoveWasNull : Bool
  /-- ss->mateKiller on entry (line 1617). -/
  mateKiller : Nat
  /-- The MovePicker output sequence (captures, queen promotions and,
  within the check band, quiet checks). -/
  moves : List QMoveRec

/-- The TT move qsearch orders with; note it survives the consistency
filter, which only drops the entry (lines 1488-1502). -/
def qTtMove (st : QNode) : Nat := (validateTTMove st.probedTT st.ttPseudoLegal).2

/-- search.cpp lines 1477, 1504-1513: the non-PV TT cutoff of qsearch,
using the qsearch TT depth convention. -/
def qsearchTTCutoff (st : QNode) : Option Int :=
  match qsearchValidatedTT st.probedTT st.ttPseudoLegal st.inCheck with
  | some e =>
    let ttDepth := if st.inCheck = true ∨ st.depth ≥ DEPTH_QS_CHECKS
      then DEPTH_QS_CHECKS else DEPTH_QS_NO_CHECKS
    if st.pvNode = false ∧ e.value ≠ VALUE_NONE
        ∧ ok_to_use_TT e ttDepth st.beta st.ply = true then
      some (value_from_tt e.value st.ply)
    else none
  | none => none

/-- search.cpp lines 1528-1537: ss->eval in the not-in-check branch. -/
def qEval (st : QNode) : Int :=
  match qsearchValidatedTT st.probedTT st.ttPseudoLegal st.inCheck with
  | some e => e.staticValue
  | none => st.evalValue

/-- search.cpp lines 1528-1537: ss->evalMargin in the not-in-check branch. -/
def qEvalMargin (st : QNode) : Int :=
  match qsearchValidatedTT st.probedTT st.ttPseudoLegal st.inCheck with
  | some e => e.staticValueMargin
  | none => st.evalMargin

/-- search.cpp lines 1528-1537: the initial bestValue in the not-in-check
branch, refined from the TT bound when the entry allows it. -/
def qInitBest (st : QNode) : Int :=
  match qsearchValidatedTT st.probedTT st.ttPseudoLegal st.inCheck with
  | some e =>
    if e.value ≠ VALUE_NONE
        ∧ (st.pvNode = false ∨ e.type = VALUE_TYPE_EXACT ∨ |e.value| ≥ VALUE_KNOWN_WIN)
    then refine_eval e e.staticValue st.ply
    else e.staticValue
  | none => st.evalValue

/-- search.cpp line 1554: the futility base in the not-in-check branch. -/
def qFutilityBase (st : QNode) : Int := qEval st + qEvalMargin st + FutilityMarginQS

/-- The loop state of the qsearch move loop; mateKiller is threaded because
a mate-scored move updates it mid-loop (lines 1643-1644) and a later
useless-check test reads it (line 1617). -/
structure QLoopState where
  alpha : Int
  bestValue : Int
  bestMove : Nat
  mateKiller : Nat
deriving DecidableEq, Repr

/-- search.cpp lines 1566-1647: the qsearch move loop as a fold.  The three
pruning families are transcribed with their exact guards; a surviving move
contributes its recursive search value. -/
def qsearchLoop (st : QNode) (ttMove : Nat) (futilityBase : Int) :
    QLoopState → List QMoveRec → QLoopState
  | ls, [] => ls
  | ls, m :: rest =>
    if ¬ (ls.alpha < st.beta) then ls
    else
      let futCond := st.pvNode = false ∧ st.inCheck = false ∧ m.givesCheck = false
          ∧ m.move ≠ ttMove ∧ st.enoughMaterial = true ∧ m.isPromotion = false
          ∧ m.isPassedPawnPush = false
      let futilityValue := futilityBase + m.capturedEndgameValue
          + (if m.isEP then PawnValueEndgame else 0)
      if futCond ∧ futilityValue < st.beta then
        qsearchLoop st ttMove futilityBase
          { ls with bestValue := if futilityValue > ls.bestValue then futilityValue
                                 else ls.bestValue } rest
      else if futCond ∧ futilityBase < st.beta ∧ m.see ≤ 0 then
        qsearchLoop st ttMove futilityBase ls rest
      else
        let evasionPrunable := st.inCheck = true ∧ ls.bestValue > VALUE_MATED_IN_PLY_MAX
            ∧ m.isCapture = false ∧ st.canCastle = false
        if st.pvNode = false ∧ (st.inCheck = false ∨ evasionPrunable) ∧ m.move ≠ ttMove
            ∧ m.isPromotion = false ∧ m.seeSign < 0 then
          qsearchLoop st ttMove futilityBase ls rest
        else if st.pvNode = false ∧ st.inCheck = false ∧ m.givesCheck = true ∧ m.move ≠ ttMove
            ∧ m.move ≠ ls.mateKiller ∧ st.prevMoveWasNull = false
            ∧ m.isCaptureOrPromotion = false
            ∧ qEval st + PawnValueMidgame / 6 < st.beta ∧ m.checkDangerous = false then
          qsearchLoop st ttMove futilityBase ls rest
        else
          let value := m.searchedValue
          let ls1 :=
            if value > ls.bestValue then
              if value > ls.alpha then
                { alpha := value, bestValue := value, bestMove := m.move,
                  mateKiller := if value ≥ VALUE_MATE_IN_PLY_MAX then m.move else ls.mateKiller }
              else { ls with bestValue := value }
            else ls
          qsearchLoop st ttMove futilityBase ls1 rest

/-- The loop entry state of the in-check branch: bestValue and futilityBase
start at -VALUE_INFINITE (line 1518), alpha is the callers alpha. -/
def qInCheckInit (st : QNode) : QLoopState :=
  { alpha := st.alpha, bestValue := -VALUE_INFINITE, bestMove := MOVE_NONE,
    mateKiller := st.mateKiller }

/-- search.cpp lines 1449-1663: the whole quiescence search.  The two TT
stores (lines 1545 and 1658) and the gain update (line 1539) are external
writes and are elided; everything else is transcribed, split on inCheck
because the evaluation section and the final checkmate test both branch on
it. -/
def qsearchRun (st : QNode) : Int :=
  if st.ply > PLY_MAX ∨ st.isDraw = true then VALUE_DRAW
  else
    match qsearchTTCutoff st with
    | some v => v
    | none =>
      if st.inCheck then
        let r := qsearchLoop st (qTtMove st) (-VALUE_INFINITE) (qInCheckInit st) st.moves
        if r.bestValue = -VALUE_INFINITE then value_mated_in st.ply else r.bestValue
      else
        if st.pvNode = true ∧ st.isStalemate = true then VALUE_DRAW
        else
          let best0 := qInitBest st
          if best0 ≥ st.beta then best0
          else
            let alpha1 := if st.pvNode = true ∧ best0 > st.alpha then best0 else st.alpha
            let r := qsearchLoop st (qTtMove st) (qFutilityBase st)
              { alpha := alpha1, bestValue := best0, bestMove := MOVE_NONE,
                mateKiller := st.mateKiller } st.moves
            r.bestValue

/-! ### The iterative-deepening driver entry (search.cpp lines 432-461) and
think (lines 299-423) -/

/-- The outcome of the iterative-deepening while loop (lines 463-622) when
the root move list is not empty, abstracted as an oracle. -/
structure IdOutcome where
  bestMove : Nat
  ponderMove : Nat
deriving DecidableEq, Repr

/-- What id_loop produces: the optional depth-0 info score (line 456-458),
the returned best move, and the ponder move left in the out-parameter. -/
structure IdResult where
  info0Score : Option Int
  bestMove : Nat
  ponderMove : Nat
deriving DecidableEq, Repr

/-- The driver state read by think() and id_loop(). -/
structure DriverState where
  /-- Rml.size() after Rml.init (line 454). -/
  rmlSize : Nat
  /-- pos.in_check() (line 457). -/
  inCheck : Bool
  /-- The OwnBook option (line 321). -/
  ownBook : Bool
  /-- book.get_move result (line 326); MOVE_NONE when the book misses. -/
  bookMove : Nat
  /-- The iterative-deepening outcome when the root move list is not
  empty. -/
  idOutcome : IdOutcome
deriving DecidableEq, Repr

/-- search.cpp lines 432-461 (and 624): id_loop.  The ponder out-parameter
is initialized to MOVE_NONE (line 445); when the root move list is empty a
depth-0 info line is emitted whose score is -VALUE_MATE in check and
VALUE_DRAW otherwise, and MOVE_NONE is returned (lines 453-461); otherwise
the iterative-deepening loop runs (abstracted as the idOutcome oracle). -/
def idLoopModel (st : DriverState) : IdResult :=
  if st.rmlSize = 0 then
    { info0Score := some (if st.inCheck then -VALUE_MATE else VALUE_DRAW),
      bestMove := MOVE_NONE, ponderMove := MOVE_NONE }
  else
    { info0Score := none, bestMove := st.idOutcome.bestMove,
      ponderMove := st.idOutcome.ponderMove }

/-- What think() prints at the end: the bestmove token and the optional
ponder token. -/
structure ThinkOutput where
  bestMove : Nat
  ponder : Option Nat
deriving DecidableEq, Repr

/-- search.cpp lines 299-423: think().  With a book hit the book move is
printed and id_loop is not reached (lines 321-335); otherwise the id_loop
result is printed, the ponder token being skipped when the ponder move is
MOVE_NONE (lines 412-420). -/
def thinkModel (st : DriverState) : ThinkOutput :=
  if st.ownBook = true ∧ st.bookMove ≠ MOVE_NONE then
    { bestMove := st.bookMove, ponder := none }
  else
    let r := idLoopModel st
    { bestMove := r.bestMove,
      ponder := if r.ponderMove ≠ MOVE_NONE then some r.ponderMove else none }

/-! ### Aspiration windows (search.cpp lines 483-549) -/

/-- The window the driver computes before an iteration. -/
structure AspWindow where
  delta : Int
  alpha : Int
  beta : Int
deriving DecidableEq, Repr

/-- search.cpp lines 483-500: the dynamic aspiration window, computed from
the best values of the three previous iterations when MultiPV is 1 and the
iteration depth is at least 5.  C integer division on the nonnegative
quantities involved agrees with Lean natural division. -/
def aspirationSetup (bv1 bv2 bv3 : Int) : AspWindow :=
  let prevDelta1 : Nat := (bv1 - bv2).natAbs
  let prevDelta2 : Nat := (bv2 - bv3).natAbs
  let d0 : Nat := min (max (prevDelta1 + prevDelta2 / 2) 16) 24
  let delta : Int := ((d0 + 7) / 8 * 8 : Nat)
  let alpha0 := max (bv1 - delta) (-VALUE_INFINITE)
  let beta0 := min (bv1 + delta) VALUE_INFINITE
  if |bv1| ≥ VALUE_KNOWN_WIN then
    { delta := delta, alpha := -VALUE_INFINITE, beta := VALUE_INFINITE }
  else
    { delta := delta, alpha := alpha0, beta := beta0 }

/-- The clamp the spec sentence speaks of, written from the spec words. -/
def clampSpec (x lo hi : Int) : Int := max lo (min x hi)

/-- search.cpp lines 522-523: inside the aspiration loop the value returned
by search is snapped to the previous iteration value when the LastValue
heuristic is armed and the two differ by exactly one. -/
def aspAdjust (lastValue prevBest v : Int) : Int :=
  if lastValue ≠ VALUE_NONE ∧ |v - prevBest| = 1 then prevBest else v

/-- The mutable state of the aspiration re-search loop. -/
structure AspLoopState where
  alpha : Int
  beta : Int
  delta : Int
deriving DecidableEq, Repr

/-- search.cpp lines 504-549: the aspiration fail-high/fail-low re-search
loop.  oracle gives the value of the root search for a window, stop models
StopRequest observed at line 516 (the iteration value is then discarded,
modelled as none); the ValueDraw bookkeeping (lines 525-529) mutates a
heuristic global and affects neither the loop control nor its value, and
the UCI/TT writes are external, so both are elided.  The widening uses C
truncating division; the driver only ever passes nonnegative deltas.  Fuel
bounds the recursion; the claims proved below hold for every fuel. -/
def aspirationLoop (oracle : Int → Int → Int) (stop : Int → Int → Bool)
    (lastValue prevBest : Int) : Nat → AspLoopState → Option Int
  | 0, _ => none
  | fuel + 1, st =>
    if stop st.alpha st.beta then none
    else
      let v := aspAdjust lastValue prevBest (oracle st.alpha st.beta)
      if v ≥ st.beta then
        let st1 : AspLoopState :=
          { alpha := st.alpha, beta := min (st.beta + st.delta) VALUE_INFINITE,
            delta := st.delta + Int.tdiv st.delta 2 }
        if |v| < VALUE_KNOWN_WIN then aspirationLoop oracle stop lastValue prevBest fuel st1
        else some v
      else if v ≤ st.alpha then
        let st1 : AspLoopState :=
          { alpha := max (st.alpha - st.delta) (-VALUE_INFINITE), beta := st.beta,
            delta := st.delta + Int.tdiv st.delta 2 }
        if |v| < VALUE_KNOWN_WIN then aspirationLoop oracle stop lastValue prevBest fuel st1
        else some v
      else some v

/-! ### Concrete states used by counterexamples and witnesses -/

/-- A transposition-table entry holding an upper-bounded mate-band score of
exactly VALUE_MATE_IN_PLY_MAX at depth 0. -/
def cexEntryC3 : TTEntry :=
  { value := 29900, staticValue := 0, staticValueMargin := 0,
    depth := 0, move := 0, type := VALUE_TYPE_UPPER }

/-- A node satisfying every condition the razoring claim lists, but with a
friendly pawn on the seventh rank. -/
def razorCexNode : RazorNode :=
  { pvNode := false, depth := 2, inCheck := false, refinedValue := 0,
    beta := 1000, ttMove := MOVE_NONE, excludedMove := MOVE_NONE,
    hasPawnOn7th := true }

/-- A quiescence oracle that always fails low at 0. -/
def razorCexQs : Int → Int → Int := fun _ _ => 0

/-! ## Theorems -/

/-- Claim C1, counterexample: the round trip of the transposition-table value
encoding fails for the Int VALUE_MATE at ply 2, a ply inside [0, PLY_MAX]:
storing shifts 30000 to 30002, which collides with the sentinel VALUE_NONE,
and reading passes the sentinel through unchanged instead of undoing the
shift. -/
theorem value_tt_roundtrip_cex :
    (0 : Int) ≤ 2 ∧ (2 : Int) ≤ PLY_MAX ∧ -VALUE_MATE ≤ VALUE_MATE
    ∧ value_from_tt (value_to_tt VALUE_MATE 2) 2 ≠ VALUE_MATE := by
  decide

/-- Claim C1, amended: for every Int v and ply in [0, PLY_MAX], the round
trip value_from_tt (value_to_tt v ply) ply = v holds except when the stored
value v + ply collides with the sentinel VALUE_NONE (that is, unless
v ≠ VALUE_NONE and v + ply = VALUE_NONE). -/
theorem value_tt_roundtrip_amended (v : Int) (ply : Int)
    (h0 : 0 ≤ ply) (h1 : ply ≤ PLY_MAX)
    (h2 : v = VALUE_NONE ∨ v + ply ≠ VALUE_NONE) :
    value_from_tt (value_to_tt v ply) ply = v := by
  simp only [value_to_tt, value_from_tt, VALUE_NONE, VALUE_MATE_IN_PLY_MAX,
    VALUE_MATED_IN_PLY_MAX, VALUE_MATE, PLY_MAX] at *
  rcases h2 with h2 | h2 <;> (split_ifs <;> omega)

/-- Witness for the amended claim C1 at v = 5, ply = 3. -/
theorem value_tt_roundtrip_amended_witness :
    value_from_tt (value_to_tt 5 3) 3 = 5 :=
  value_tt_roundtrip_amended 5 3 (by decide) (by decide) (Or.inr (by decide))

/-- Claim C2, counterexample: value_to_tt does shift the sentinel VALUE_NONE;
at ply 1 it returns VALUE_NONE + 1, because VALUE_NONE lies above
VALUE_MATE_IN_PLY_MAX and takes the mate-score branch. -/
theorem value_to_tt_none_cex : value_to_tt VALUE_NONE 1 ≠ VALUE_NONE := by
  decide

/-- Claim C2, amended: value_to_tt adds ply to every value at or above
VALUE_MATE_IN_PLY_MAX, subtracts ply from every value at or below
VALUE_MATED_IN_PLY_MAX, and leaves the values strictly between the two bounds
unchanged; it is value_from_tt, not value_to_tt, that never shifts the
sentinel: value_from_tt VALUE_NONE ply = VALUE_NONE for every ply, while
value_to_tt treats VALUE_NONE like a mate score (the code never routes
VALUE_NONE through value_to_tt). -/
theorem value_to_tt_cases_amended (v : Int) (ply : Int) :
    (VALUE_MATE_IN_PLY_MAX ≤ v → value_to_tt v ply = v + ply)
    ∧ (v ≤ VALUE_MATED_IN_PLY_MAX → value_to_tt v ply = v - ply)
    ∧ (VALUE_MATED_IN_PLY_MAX < v → v < VALUE_MATE_IN_PLY_MAX → value_to_tt v ply = v)
    ∧ value_from_tt VALUE_NONE ply = VALUE_NONE := by
  simp only [value_to_tt, value_from_tt, VALUE_NONE, VALUE_MATE_IN_PLY_MAX,
    VALUE_MATED_IN_PLY_MAX, VALUE_MATE, PLY_MAX]
  refine ⟨fun h => ?_, fun h => ?_, fun h1 h2 => ?_, ?_⟩ <;> (split_ifs <;> omega)

/-- Witness for the amended claim C2 at the three value regions and at the
sentinel, all with ply = 7. -/
theorem value_to_tt_cases_amended_witness :
    value_to_tt 29950 7 = 29950 + 7 ∧ value_to_tt (-29950) 7 = -29950 - 7
    ∧ value_to_tt 10 7 = 10 ∧ value_from_tt VALUE_NONE 7 = VALUE_NONE := by
  have ha := value_to_tt_cases_amended 29950 7
  have hb := value_to_tt_cases_amended (-29950) 7
  have hc := value_to_tt_cases_amended 10 7
  exact ⟨ha.1 (by decide), hb.2.1 (by decide), hc.2.2.1 (by decide) (by decide), ha.2.2.2⟩

/-- Claim C3, counterexample: ok_to_use_TT does not return true for every
entry whose score lies outside the ordinary band and whose bound kind is on
the correct side of beta.  For the entry with stored value 29900
(= VALUE_MATE_IN_PLY_MAX, outside the ordinary band), UPPER bound and depth
0, requested depth 1, beta = 29950 and ply = 0, the claim demands true (the
score is outside the band, and it is an UPPER bound with value < beta), but
the code requires the score to reach max(VALUE_MATE_IN_PLY_MAX, beta) and
returns false. -/
theorem ok_to_use_TT_claim_cex :
    ok_to_use_TT cexEntryC3 1 29950 0 = false
    ∧ okToUseTTClaimed cexEntryC3 1 29950 0 = true := by
  decide

/-- Claim C3, amended: ok_to_use_TT returns true exactly when (the entry
depth is at least the requested depth, OR the ply-adjusted score is at least
both VALUE_MATE_IN_PLY_MAX and beta, OR it is below both
VALUE_MATED_IN_PLY_MAX and beta) AND the bound kind lies on the correct side
of beta (a bound with the LOWER bit and value at least beta, or a bound with
the UPPER bit and value below beta). -/
theorem ok_to_use_TT_amended (tte : TTEntry) (depth : Int) (beta : Int) (ply : Int) :
    ok_to_use_TT tte depth beta ply = true ↔
      ((depth ≤ tte.depth
          ∨ (VALUE_MATE_IN_PLY_MAX ≤ value_from_tt tte.value ply
              ∧ beta ≤ value_from_tt tte.value ply)
          ∨ (value_from_tt tte.value ply < VALUE_MATED_IN_PLY_MAX
              ∧ value_from_tt tte.value ply < beta))
        ∧ ((tte.type &&& VALUE_TYPE_LOWER ≠ 0 ∧ beta ≤ value_from_tt tte.value ply)
          ∨ (tte.type &&& VALUE_TYPE_UPPER ≠ 0 ∧ value_from_tt tte.value ply < beta))) := by
  simp only [ok_to_use_TT, Bool.and_eq_true, Bool.or_eq_true, decide_eq_true_eq,
    ge_iff_le, max_le_iff, lt_min_iff]
  tauto

/-- Claim C4, counterexample: a node can satisfy every condition the claim
lists (non-PV, depth below the razor depth, not in check, no TT move, eval
plus margin below beta) and still not be razored: the code additionally
requires no excluded move, beta below the mate band, and no friendly pawn on
the seventh rank.  At razorCexNode, which has a pawn on the seventh rank,
the claimed trigger returns the failing-low quiescence value 0 while the
code falls through. -/
theorem razoring_claim_cex :
    razoringStep razorCexNode razorCexQs = none
    ∧ razoringStepClaimed razorCexNode razorCexQs = some 0 := by
  constructor <;> rfl

/-- Claim C4, amended: at every non-PV main-search node with depth below the
razor depth, not in check, with no TT move, no excluded move, |beta| below
the mate band, no friendly pawn on the seventh rank, and refined eval plus
the depth-dependent razor margin below beta, the search runs a zero-window
quiescence search at (rbeta-1, rbeta) with rbeta = beta -
razor_margin(depth), returns its value when it is below rbeta, and falls
through otherwise. -/
theorem razoring_amended (st : RazorNode) (qs : Int → Int → Int)
    (h1 : st.pvNode = false) (h2 : st.depth < RazorDepth) (h3 : st.inCheck = false)
    (h4 : st.refinedValue + razor_margin st.depth < st.beta)
    (h5 : st.ttMove = MOVE_NONE) (h6 : st.excludedMove = MOVE_NONE)
    (h7 : |st.beta| < VALUE_MATE_IN_PLY_MAX) (h8 : st.hasPawnOn7th = false) :
    razoringStep st qs =
      (if qs (st.beta - razor_margin st.depth - 1) (st.beta - razor_margin st.depth)
          < st.beta - razor_margin st.depth
       then some (qs (st.beta - razor_margin st.depth - 1) (st.beta - razor_margin st.depth))
       else none) := by
  unfold razoringStep
  rw [if_pos ⟨h1, h2, h3, h4, h5, h6, h7, h8⟩]

/-- Witness for the amended claim C4: a razored node with beta = 1000 at
depth 2, where the quiescence oracle fails low at 0. -/
theorem razoring_amended_witness :
    razoringStep
      { pvNode := false, depth := 2, inCheck := false, refinedValue := 0,
        beta := 1000, ttMove := MOVE_NONE, excludedMove := MOVE_NONE,
        hasPawnOn7th := false } razorCexQs = some 0 := by
  have h := razoring_amended
    { pvNode := false, depth := 2, inCheck := false, refinedValue := 0,
      beta := 1000, ttMove := MOVE_NONE, excludedMove := MOVE_NONE,
      hasPawnOn7th := false } razorCexQs
    rfl (by decide) rfl (by decide) rfl rfl (by decide) rfl
  exact h.trans (by decide)

/-- Claim C5: at a non-split-point node (the loop above instantiates the
search template at SpNode = false), whenever the move loop counted no moves,
search returns oldAlpha if an excludedMove was set, otherwise
value_mated_in(ply) if the side to move is in check, otherwise
VALUE_DRAW. -/
theorem search_no_moves_mate_stalemate (cx : SLoopCtx) (oldAlpha : Int) (inCheck : Bool)
    (ply alpha : Int) (moves : List SMoveRec)
    (h : (searchMoveLoop cx (initLoopState alpha) moves).moveCount = 0) :
    searchMoveLoopFinish cx oldAlpha inCheck ply alpha moves =
      (if cx.excludedMove ≠ MOVE_NONE then oldAlpha
       else if inCheck then value_mated_in ply else VALUE_DRAW) := by
  simp only [searchMoveLoopFinish]
  rw [if_pos h]

/-- Witness for claim C5: a singular-extension exclusion node whose only
picker move is the excluded move itself, so nothing is counted and the
stored oldAlpha = 42 is returned. -/
theorem search_no_moves_mate_stalemate_witness :
    searchMoveLoopFinish
      { pvNode := false, root := false, excludedMove := 7, beta := 5, depth := 4,
        lastValue := VALUE_NONE, multiPV := 1, rmlScore := fun _ => 0, evalGtZero := false }
      42 false 4 (-100)
      [{ move := 7, cutoffAtHead := false, matchesExclClass := false, givesCheck := false,
         outcome := .pruneQuiet }] = 42 := by
  have h := search_no_moves_mate_stalemate
    { pvNode := false, root := false, excludedMove := 7, beta := 5, depth := 4,
      lastValue := VALUE_NONE, multiPV := 1, rmlScore := fun _ => 0, evalGtZero := false }
    42 false 4 (-100)
    [{ move := 7, cutoffAtHead := false, matchesExclClass := false, givesCheck := false,
       outcome := .pruneQuiet }] rfl
  exact h.trans (by decide)

/-- Claim C6: when qsearch is called in check, no early short-circuit fires
(no draw, no ply overflow, no non-PV TT cutoff) and the move loop leaves
bestValue at its initial -VALUE_INFINITE, the function returns
value_mated_in(ply) - in particular when the move list is empty, which is
the no-legal-moves checkmate. -/
theorem qsearch_checkmate_detection (st : QNode)
    (h1 : ¬ (st.ply > PLY_MAX ∨ st.isDraw = true))
    (h2 : st.inCheck = true)
    (h3 : qsearchTTCutoff st = none)
    (h4 : (qsearchLoop st (qTtMove st) (-VALUE_INFINITE) (qInCheckInit st) st.moves).bestValue
            = -VALUE_INFINITE) :
    qsearchRun st = value_mated_in st.ply := by
  simp only [qsearchRun, h3, h2, if_neg h1, if_true]
  rw [if_pos h4]

/-- Witness for claim C6: an in-check node at ply 3 with no moves at all;
qsearch returns value_mated_in 3. -/
theorem qsearch_checkmate_detection_witness :
    qsearchRun
      { pvNode := false, alpha := -100, beta := 100, depth := 0, ply := 3,
        isDraw := false, inCheck := true, probedTT := none, ttPseudoLegal := false,
        isStalemate := false, evalValue := 0, evalMargin := 0, enoughMaterial := false,
        canCastle := false, prevMoveWasNull := false, mateKiller := MOVE_NONE,
        moves := [] } = value_mated_in 3 :=
  qsearch_checkmate_detection
    { pvNode := false, alpha := -100, beta := 100, depth := 0, ply := 3,
      isDraw := false, inCheck := true, probedTT := none, ttPseudoLegal := false,
      isStalemate := false, evalValue := 0, evalMargin := 0, enoughMaterial := false,
      canCastle := false, prevMoveWasNull := false, mateKiller := MOVE_NONE,
      moves := [] } (by decide) rfl rfl rfl

/-- Claim C7: when the root move list is empty and no book move preempts the
search, id_loop emits a depth-0 info line scoring -VALUE_MATE in check and
VALUE_DRAW otherwise and returns MOVE_NONE, and think then prints bestmove
MOVE_NONE with no ponder token. -/
theorem root_no_legal_moves (st : DriverState)
    (h0 : st.rmlSize = 0)
    (h1 : ¬ (st.ownBook = true ∧ st.bookMove ≠ MOVE_NONE)) :
    (idLoopModel st).info0Score = some (if st.inCheck then -VALUE_MATE else VALUE_DRAW)
    ∧ (idLoopModel st).bestMove = MOVE_NONE
    ∧ (thinkModel st).bestMove = MOVE_NONE
    ∧ (thinkModel st).ponder = none := by
  simp only [thinkModel, idLoopModel]
  simp only [if_pos h0, if_neg h1]
  simp [MOVE_NONE]

/-- Witness for claim C7: a checkmated root (in check, no moves, no book);
the info score is -VALUE_MATE, the best move is MOVE_NONE and no ponder
move is printed. -/
theorem root_no_legal_moves_witness :
    (idLoopModel { rmlSize := 0, inCheck := true, ownBook := false, bookMove := MOVE_NONE,
                   idOutcome := { bestMove := MOVE_NONE, ponderMove := MOVE_NONE } }).info0Score
        = some (-VALUE_MATE)
    ∧ (thinkModel { rmlSize := 0, inCheck := true, ownBook := false, bookMove := MOVE_NONE,
                    idOutcome := { bestMove := MOVE_NONE, ponderMove := MOVE_NONE } }).bestMove
        = MOVE_NONE
    ∧ (thinkModel { rmlSize := 0, inCheck := true, ownBook := false, bookMove := MOVE_NONE,
                    idOutcome := { bestMove := MOVE_NONE, ponderMove := MOVE_NONE } }).ponder
        = none := by
  have h := root_no_legal_moves
    { rmlSize := 0, inCheck := true, ownBook := false, bookMove := MOVE_NONE,
      idOutcome := { bestMove := MOVE_NONE, ponderMove := MOVE_NONE } } rfl (by decide)
  exact ⟨h.1, h.2.2.1, h.2.2.2⟩

/-- Claim C8: when MultiPV = 1 and depth at least 5 the driver computes
aspirationDelta as clamp(|bv1-bv2| + |bv2-bv3|/2, 16, 24) rounded up to a
multiple of 8 (characterised here as the unique multiple of 8 within
[clamp, clamp+8)), sets alpha = bv1 - delta and beta = bv1 + delta clamped
to -INFINITE and +INFINITE, and widens the window to the full
(-INFINITE, INFINITE) when |bv1| reaches VALUE_KNOWN_WIN. -/
theorem aspiration_window_setup (bv1 bv2 bv3 : Int) :
    (8 ∣ (aspirationSetup bv1 bv2 bv3).delta
      ∧ clampSpec (|bv1 - bv2| + |bv2 - bv3| / 2) 16 24 ≤ (aspirationSetup bv1 bv2 bv3).delta
      ∧ (aspirationSetup bv1 bv2 bv3).delta
          < clampSpec (|bv1 - bv2| + |bv2 - bv3| / 2) 16 24 + 8)
    ∧ (|bv1| < VALUE_KNOWN_WIN →
        (aspirationSetup bv1 bv2 bv3).alpha
            = max (bv1 - (aspirationSetup bv1 bv2 bv3).delta) (-VALUE_INFINITE)
          ∧ (aspirationSetup bv1 bv2 bv3).beta
            = min (bv1 + (aspirationSetup bv1 bv2 bv3).delta) VALUE_INFINITE)
    ∧ (VALUE_KNOWN_WIN ≤ |bv1| →
        (aspirationSetup bv1 bv2 bv3).alpha = -VALUE_INFINITE
        ∧ (aspirationSetup bv1 bv2 bv3).beta = VALUE_INFINITE) := by
  simp only [aspirationSetup, clampSpec, Int.abs_eq_natAbs, ge_iff_le]
  split_ifs with h
  · refine ⟨⟨?_, ?_, ?_⟩, fun hlt => absurd h (not_le.mpr hlt), fun _ => ⟨rfl, rfl⟩⟩ <;>
    · dsimp only
      omega
  · refine ⟨⟨?_, ?_, ?_⟩, fun _ => ⟨rfl, rfl⟩, fun hle => absurd hle h⟩ <;>
    · dsimp only
      omega

/-- Witness for claim C8 at bv1 = bv2 = bv3 = 0: the clamp gives 16, already
a multiple of 8, and the window is (-16, 16). -/
theorem aspiration_window_setup_witness :
    (aspirationSetup 0 0 0).delta = 16
    ∧ (aspirationSetup 0 0 0).alpha = -16
    ∧ (aspirationSetup 0 0 0).beta = 16 := by
  have h := aspiration_window_setup 0 0 0
  have h2 := h.2.1 (by decide)
  exact ⟨by decide, h2.1.trans (by decide), h2.2.trans (by decide)⟩

/-- Claim C9: in both the main search and the quiescence search, a probed
entry whose stored statics are inconsistent with the in-check status (in
check they must both be VALUE_NONE, out of check neither may be) is
discarded during validation, so it can produce no TT cutoff, its statics are
never reused (the evaluator is called as if the probe had missed), and no
bound refinement happens from it. -/
theorem tt_static_eval_consistency (e : TTEntry) (pl inCheck root pvNode : Bool)
    (alpha beta depth ply evalO marginO : Int)
    (h : ttStaticsInconsistent e inCheck = true) :
    searchValidatedTT (some e) pl inCheck = none
    ∧ searchTTCutoff root pvNode (searchValidatedTT (some e) pl inCheck)
        alpha beta depth ply = none
    ∧ searchEvalStep inCheck (searchValidatedTT (some e) pl inCheck) evalO marginO ply
        = searchEvalStep inCheck none evalO marginO ply
    ∧ qsearchValidatedTT (some e) pl inCheck = none
    ∧ (∀ st : QNode, st.probedTT = some e → st.ttPseudoLegal = pl → st.inCheck = inCheck →
        qsearchTTCutoff st = none ∧ qInitBest st = st.evalValue
        ∧ qEval st = st.evalValue ∧ qEvalMargin st = st.evalMargin) := by
  have hv : searchValidatedTT (some e) pl inCheck = none := by
    simp only [searchValidatedTT, validateTTMove]
    split_ifs <;> simp [h]
  have hq : qsearchValidatedTT (some e) pl inCheck = none := by
    simp only [qsearchValidatedTT, validateTTMove]
    split_ifs <;> simp [h]
  refine ⟨hv, by rw [hv]; rfl, by rw [hv], hq, ?_⟩
  intro st hst hpl hic
  refine ⟨?_, ?_, ?_, ?_⟩ <;>
  · simp only [qsearchTTCutoff, qInitBest, qEval, qEvalMargin, hst, hpl, hic, hq]

/-- Witness for claim C9: an out-of-check probe hitting an entry that stores
VALUE_NONE statics; the entry is dropped everywhere. -/
theorem tt_static_eval_consistency_witness :
    searchValidatedTT
        (some { value := 100, staticValue := VALUE_NONE, staticValueMargin := VALUE_NONE,
                depth := 6, move := 5, type := VALUE_TYPE_EXACT }) true false = none
    ∧ searchTTCutoff false false
        (searchValidatedTT
          (some { value := 100, staticValue := VALUE_NONE, staticValueMargin := VALUE_NONE,
                  depth := 6, move := 5, type := VALUE_TYPE_EXACT }) true false)
        (-10) 10 2 1 = none := by
  have h := tt_static_eval_consistency
    { value := 100, staticValue := VALUE_NONE, staticValueMargin := VALUE_NONE,
      depth := 6, move := 5, type := VALUE_TYPE_EXACT } true false false false
    (-10) 10 2 1 0 0 (by decide)
  exact ⟨h.1, h.2.1⟩

/-- Claim C10: the aspiration re-search loop accepts a score whose magnitude
reaches VALUE_KNOWN_WIN as the iteration value and terminates at once, even
when that score failed high (at or above beta) or low (at or below alpha)
against the current window, with no further widening or re-search; fuel + 1
shows one oracle call suffices whatever budget remains. -/
theorem aspiration_loop_known_win_exit (oracle : Int → Int → Int)
    (stop : Int → Int → Bool) (lastValue prevBest : Int) (st : AspLoopState) (fuel : Nat)
    (hstop : stop st.alpha st.beta = false)
    (hkw : VALUE_KNOWN_WIN ≤ |aspAdjust lastValue prevBest (oracle st.alpha st.beta)|)
    (hout : aspAdjust lastValue prevBest (oracle st.alpha st.beta) ≥ st.beta
            ∨ aspAdjust lastValue prevBest (oracle st.alpha st.beta) ≤ st.alpha) :
    aspirationLoop oracle stop lastValue prevBest (fuel + 1) st
      = some (aspAdjust lastValue prevBest (oracle st.alpha st.beta)) := by
  simp only [aspirationLoop, hstop, Bool.false_eq_true, if_false]
  by_cases hge : aspAdjust lastValue prevBest (oracle st.alpha st.beta) ≥ st.beta
  · rw [if_pos hge, if_neg (not_lt.mpr hkw)]
  · rw [if_neg hge]
    rcases hout with hfh | hfl
    · exact absurd hfh hge
    · rw [if_pos hfl, if_neg (not_lt.mpr hkw)]

/-- Witness for claim C10: a window (-16, 16) whose search comes back 20000,
a known-win score failing high; the loop stops at once with 20000. -/
theorem aspiration_loop_known_win_exit_witness :
    aspirationLoop (fun _ _ => 20000) (fun _ _ => false) VALUE_NONE 0 1
      { alpha := -16, beta := 16, delta := 16 } = some 20000 := by
  have h := aspiration_loop_known_win_exit (fun _ _ => 20000) (fun _ _ => false)
    VALUE_NONE 0 { alpha := -16, beta := 16, delta := 16 } 0 rfl (by decide)
    (Or.inl (by decide))
  exact h.trans (by decide)

end Sting
